import Mathlib

/-!
Shallow embedding of the country-explorer application (src/app.js) and
verification of its specification claims.

Modelling conventions for the JavaScript source:
* a JS value that may be `undefined`/`null` is an `Option`;
* JS truthiness is modelled faithfully: `undefined`/`null` are falsy,
  the empty string is falsy, but a present object or array (even an
  empty one) is truthy, and a present number or boolean follows its value;
* interpolating `undefined` into a template literal yields the string
  "undefined" (`jsStr`);
* code that would throw a `TypeError` (property access or method call on
  `undefined`) is modelled by returning `none` from an `Option`-valued
  function;
* a JS object used as a map (languages, currencies) is an association
  list in iteration order, so `Object.values` is `List.map Prod.snd`.
-/

namespace CountryExp

/-- Truthiness of an optional JS string: `undefined`/`null` and `""` are
falsy, every other string is truthy. -/
def truthyStr : Option String → Bool
  | none => false
  | some s => s ≠ ""

/-- JS coercion of a possibly-`undefined` string into a template literal. -/
def jsStr : Option String → String
  | none => "undefined"
  | some s => s

/-- JS coercion of a possibly-`undefined` number into a template literal. -/
def jsNum : Option Int → String
  | none => "undefined"
  | some n => toString n

/-- Is the pattern a prefix of the character list. -/
def startsWithChars : List Char → List Char → Bool
  | [], _ => true
  | _ :: _, [] => false
  | p :: ps, c :: cs => p = c && startsWithChars ps cs

/-- Does the pattern occur as a contiguous run anywhere in the list. -/
def containsChars (pat : List Char) : List Char → Bool
  | [] => startsWithChars pat []
  | c :: rest => startsWithChars pat (c :: rest) || containsChars pat rest

/-- `String.prototype.includes`: does `pat` occur as a substring of `s`. -/
def jsIncludes (s pat : String) : Bool :=
  containsChars pat.data s.data

/-! ## Data model: the country record as consumed by app.js -/

/-- The `name` sub-object of a country record. -/
structure JSName where
  common : Option String
  official : Option String
  deriving Repr, DecidableEq

/-- The `flags` sub-object of a country record. -/
structure JSFlags where
  svg : Option String
  deriving Repr, DecidableEq

/-- One value of the `currencies` map: `{name, symbol}`. -/
structure JSCurrency where
  name : String
  symbol : Option String
  deriving Repr, DecidableEq

/-- The `idd` sub-object: dialing root and suffix list. -/
structure JSIdd where
  root : Option String
  suffixes : Option (List String)
  deriving Repr, DecidableEq

/-- A country record as read by `displayCountryInfo`.  Every field the code
might find absent on some API response is an `Option`.  Maps are association
lists (key, value) in iteration order; numbers are integers (the code only
formats them). -/
structure JSCountry where
  name : Option JSName
  flags : Option JSFlags
  capital : Option (List String)
  region : Option String
  subregion : Option String
  population : Option Int
  area : Option Int
  currencies : Option (List (String × JSCurrency))
  languages : Option (List (String × String))
  tld : Option (List String)
  latlng : Option (List Int)
  timezones : Option (List String)
  continents : Option (List String)
  idd : Option JSIdd
  borders : Option (List String)
  independent : Option Bool
  unMember : Option Bool
  deriving Repr, DecidableEq

/-! ## Formatter functions (src/app.js lines 112-139) -/

/-- `String.prototype.trim`: drop leading and trailing whitespace. -/
def jsTrim (s : String) : String :=
  String.mk ((s.data.dropWhile Char.isWhitespace).reverse.dropWhile Char.isWhitespace).reverse

/-- Helper for `formatNumber`: split a reversed digit list into groups of
three, least-significant group first. -/
def chunk3 : List Char → List (List Char)
  | [] => []
  | a :: b :: c :: rest => [a, b, c] :: chunk3 rest
  | l => [l]

/-- Thousands grouping of a natural number, as
`Number.prototype.toLocaleString` with the en-US locale renders integers. -/
def formatNatGrouped (n : Nat) : String :=
  String.mk (List.intercalate [','] (chunk3 (toString n).data.reverse)).reverse

/-- `formatNumber(num)`: `num.toLocaleString` with en-US grouping
(app.js line 113).  Integers only, as used by the app. -/
def formatNumber (n : Int) : String :=
  if n < 0 then "-" ++ formatNatGrouped n.natAbs else formatNatGrouped n.natAbs

/-- `getLanguages(languages)` (app.js lines 121-124): the fallback list when
the map is falsy, otherwise `Object.values(languages)`. -/
def getLanguages (languages : Option (List (String × String))) : List String :=
  match languages with
  | none => ["Not available"]
  | some m => m.map Prod.snd

/-- One entry of the currency list (app.js line 135):
`curr.symbol ? name (symbol) : name`, with JS string truthiness. -/
def currencyEntry (curr : JSCurrency) : String :=
  if truthyStr curr.symbol then
    curr.name ++ " (" ++ jsStr curr.symbol ++ ")"
  else curr.name

/-- `getCurrencies(currencies)` (app.js lines 131-139). -/
def getCurrencies (currencies : Option (List (String × JSCurrency))) : String :=
  match currencies with
  | none => "Not available"
  | some m => String.intercalate ", " (m.map (fun p => currencyEntry p.2))

/-- Comma-join by direct recursion, used to state the join behaviour of
`getCurrencies` independently of the accumulator inside
`String.intercalate`. -/
def joinComma : List String → String
  | [] => ""
  | [x] => x
  | x :: y :: ys => x ++ ", " ++ joinComma (y :: ys)

/-! ## Display output of `displayCountryInfo` (app.js lines 149-201) -/

/-- The strings pushed to the display targets by `displayCountryInfo`.
Badge containers (languages, domains) hold one string per badge. -/
structure DisplayInfo where
  flagSrc : String
  flagAlt : String
  countryName : String
  officialName : String
  capital : String
  region : String
  population : String
  area : String
  currencies : String
  languages : List String
  domains : List String
  mapSrc : String
  timezones : String
  continent : String
  callingCode : String
  borders : String
  independent : String
  unMember : String
  deriving Repr, DecidableEq

/-- `displayCountryInfo(country)` (app.js lines 149-201).  Returns `none`
exactly where the JS code would throw a `TypeError`: reading a property of
an absent sub-object (`name`, `flags`, `latlng`, `idd`) or calling a method
on an absent value (`population`/`area` via `toLocaleString`, `timezones`
via `join`).  All other absences flow through guards or JS coercions. -/
def displayCountryInfo (country : JSCountry) : Option DisplayInfo :=
  match country.name with
  | none => none
  | some nm =>
  match country.flags with
  | none => none
  | some fl =>
  match country.population with
  | none => none
  | some pop =>
  match country.area with
  | none => none
  | some ar =>
  match country.latlng with
  | none => none
  | some ll =>
  match country.timezones with
  | none => none
  | some tz =>
  match country.idd with
  | none => none
  | some idd =>
  some {
    flagSrc := jsStr fl.svg
    flagAlt := "Flag of " ++ jsStr nm.common
    countryName := jsStr nm.common
    officialName := jsStr nm.official
    capital :=
      match country.capital with
      | none => "Not available"
      | some caps => jsStr (caps.get? 0)
    region :=
      jsStr country.region ++
        (if truthyStr country.subregion then " - " ++ jsStr country.subregion else "")
    population := formatNumber pop
    area := formatNumber ar ++ " km²"
    currencies := getCurrencies country.currencies
    languages := getLanguages country.languages
    domains :=
      match country.tld with
      | none => ["Not available"]
      | some l => l
    mapSrc :=
      "https://maps.google.com/maps?q=" ++ jsNum (ll.get? 0) ++ "," ++
        jsNum (ll.get? 1) ++ "&z=5&output=embed"
    timezones := String.intercalate ", " tz
    continent :=
      match country.continents with
      | none => "Not available"
      | some l => jsStr (l.get? 0)
    callingCode :=
      if truthyStr idd.root then
        jsStr idd.root ++
          (match idd.suffixes with
           | none => ""
           | some sfx => jsStr (sfx.get? 0))
      else "Not available"
    borders :=
      match country.borders with
      | none => "None (island/isolated)"
      | some bs => toString bs.length ++ " countries"
    independent := if country.independent.getD false then "Yes" else "No"
    unMember := if country.unMember.getD false then "Yes" else "No"
  }

/-! ## Theme management (app.js lines 20-43) -/

/-- The observable theme state: the `data-theme` attribute on the document
root (`getAttribute` yields `null`, i.e. `none`, when absent), the value
persisted in localStorage under the key `theme`, and the `hidden` class on
the two toggle icons. -/
structure ThemeState where
  attr : Option String
  stored : Option String
  sunHidden : Bool
  moonHidden : Bool
  deriving Repr, DecidableEq

/-- `setTheme(theme)` (app.js lines 20-34): set the root attribute, persist
under the `theme` key, and swap the icon visibility. -/
def setTheme (theme : String) (s : ThemeState) : ThemeState :=
  { s with
    attr := some theme
    stored := some theme
    sunHidden := theme = "dark"
    moonHidden := theme ≠ "dark" }

/-- `toggleTheme()` (app.js lines 39-43): read the current attribute,
flip `dark` to `light` and anything else to `dark`, and apply it. -/
def toggleTheme (s : ThemeState) : ThemeState :=
  let currentTheme := s.attr
  let newTheme := if currentTheme = some "dark" then "light" else "dark"
  setTheme newTheme s

/-! ## View-state panels (app.js lines 220-251) -/

/-- The `hidden` class on the three display regions, plus the error text. -/
structure PanelState where
  loadingHidden : Bool
  resultsHidden : Bool
  errorHidden : Bool
  errorText : String
  deriving Repr, DecidableEq

/-- `showLoading()` (app.js lines 220-224). -/
def showLoading (s : PanelState) : PanelState :=
  { s with loadingHidden := false, resultsHidden := true, errorHidden := true }

/-- `showResults()` (app.js lines 229-239); the scroll-into-view call does
not change visibility. -/
def showResults (s : PanelState) : PanelState :=
  { s with loadingHidden := true, resultsHidden := false, errorHidden := true }

/-- `showError(message)` (app.js lines 245-251). -/
def showError (message : String) (s : PanelState) : PanelState :=
  { s with
    errorText := message
    errorHidden := false
    loadingHidden := true
    resultsHidden := true }

/-- Exactly one of the three display regions is visible. -/
def exactlyOneVisible (s : PanelState) : Prop :=
  (if s.loadingHidden then 0 else 1) + (if s.resultsHidden then 0 else 1) +
    (if s.errorHidden then 0 else 1) = 1

instance (s : PanelState) : Decidable (exactlyOneVisible s) := by
  unfold exactlyOneVisible; infer_instance

/-! ## Country data client (app.js lines 55-101) -/

/-- The outcome of the browser `fetch` as seen by `fetchCountryData`: either
a transport-level failure (the promise rejects) or an HTTP response with a
status, a status text, and a parsed JSON body.  The body is the decoded
array of country records, `none` standing for JSON `null` or a non-array. -/
inductive FetchResponse where
  | transportFailure
  | httpResponse (status : Nat) (statusText : String) (body : Option (List JSCountry))
  deriving Repr

/-- The user-facing message thrown on HTTP 404 (app.js line 72). -/
def notFoundMessage (countryName : String) : String :=
  "Country \"" ++ countryName ++ "\" not found. Please check the spelling and try again."

/-- The network advice the catch block substitutes (app.js line 96) for an
error whose message contains "Failed to fetch". -/
def networkErrorMessage : String :=
  "Network error. Please check your internet connection and make sure you are running this through a web server (not file://)"

/-- The try block of `fetchCountryData` (app.js lines 64-89): a transport
failure rejects the fetch promise with the browser message
"Failed to fetch"; an HTTP response is checked for status 404 first, then
for a non-ok status (`response.ok` is status 200..299), then the body
array is taken. -/
def fetchAttempt (countryName : String) (resp : FetchResponse) :
    Except String JSCountry :=
  match resp with
  | .transportFailure => .error "Failed to fetch"
  | .httpResponse status statusText body =>
    if status = 404 then
      .error (notFoundMessage countryName)
    else if ¬ (200 ≤ status ∧ status ≤ 299) then
      .error ("API Error: " ++ toString status ++ " - " ++ statusText)
    else
      match body with
      | some (first :: _) => .ok first
      | _ => .error "No data returned from API"

/-- The catch block of `fetchCountryData` (app.js lines 91-100): an error
whose message contains "Failed to fetch" is replaced by the network-error
advice; every other error is re-thrown unchanged. -/
def applyCatch : Except String JSCountry → Except String JSCountry
  | .ok c => .ok c
  | .error msg =>
    if jsIncludes msg "Failed to fetch" then .error networkErrorMessage
    else .error msg

/-- `fetchCountryData(countryName)` (app.js lines 55-101), as a function of
the fetch outcome: the try block wrapped in the catch block. -/
def fetchCountryData (countryName : String) (resp : FetchResponse) :
    Except String JSCountry :=
  applyCatch (fetchAttempt countryName resp)

/-! ## Main search function (app.js lines 261-287) -/

/-- The terminal view state of one search attempt. -/
inductive ViewState where
  | results (d : DisplayInfo)
  | errorShown (message : String)
  deriving Repr, DecidableEq

/-- The message of the `TypeError` the browser raises when
`displayCountryInfo` reads a property of `undefined`; the exact wording is
engine-specific and no claim depends on it. -/
def typeErrorMessage : String :=
  "TypeError: cannot read properties of undefined"

/-- `searchCountry()` (app.js lines 261-287), as a function of the raw input
value and the fetch outcome.  Returns the terminal view state together with
a flag recording whether `fetchCountryData` was invoked. -/
def searchCountry (input : String) (resp : FetchResponse) : ViewState × Bool :=
  let countryName := jsTrim input
  if countryName = "" then
    (.errorShown "Please enter a country name", false)
  else
    match fetchCountryData countryName resp with
    | .ok countryData =>
      match displayCountryInfo countryData with
      | some d => (.results d, true)
      | none => (.errorShown typeErrorMessage, true)
    | .error msg => (.errorShown msg, true)

/-! ## Concrete test data -/

/-- A country record with every field required by `displayCountryInfo`
present and every optional field absent. -/
def testRecord : JSCountry :=
  { name := some ⟨some "Atlantis", some "Republic of Atlantis"⟩
    flags := some ⟨some "https://example.org/flag.svg"⟩
    capital := none
    region := some "Oceania"
    subregion := none
    population := some 1234567
    area := some 1000
    currencies := none
    languages := none
    tld := none
    latlng := some [10, 20]
    timezones := some ["UTC"]
    continents := none
    idd := some ⟨none, none⟩
    borders := none
    independent := none
    unMember := none }

/-- A fallback display value used only to state closed evaluations. -/
def emptyDisplay : DisplayInfo :=
  ⟨"", "", "", "", "", "", "", "", "", [], [], "", "", "", "", "", "", ""⟩

/-! ## Helper lemmas -/

/-- `startsWithChars` decides the prefix relation. -/
theorem startsWithChars_iff (pat : List Char) :
    ∀ s : List Char, startsWithChars pat s = true ↔ ∃ rest, s = pat ++ rest := by
  induction pat with
  | nil =>
    intro s
    simp [startsWithChars]
  | cons p ps ih =>
    intro s
    cases s with
    | nil =>
      simp [startsWithChars]
    | cons c cs =>
      simp only [startsWithChars, Bool.and_eq_true, decide_eq_true_eq, ih cs,
        List.cons_append, List.cons.injEq]
      constructor
      · rintro ⟨rfl, rest, rfl⟩
        exact ⟨rest, rfl, rfl⟩
      · rintro ⟨rest, rfl, rfl⟩
        exact ⟨rfl, rest, rfl⟩

/-- `containsChars` decides the substring relation. -/
theorem containsChars_iff (pat : List Char) :
    ∀ s : List Char, containsChars pat s = true ↔ ∃ pre post, s = pre ++ pat ++ post := by
  intro s
  induction s with
  | nil =>
    rw [containsChars, startsWithChars_iff]
    constructor
    · rintro ⟨rest, h⟩
      exact ⟨[], rest, by simpa using h⟩
    · rintro ⟨pre, post, h⟩
      have h2 := h.symm
      simp only [List.append_eq_nil] at h2
      exact ⟨[], by simp [h2.1.2, h2.2]⟩
  | cons c cs ih =>
    rw [containsChars]
    simp only [Bool.or_eq_true, startsWithChars_iff, ih]
    constructor
    · rintro (⟨rest, h⟩ | ⟨pre, post, h⟩)
      · exact ⟨[], rest, by simpa using h⟩
      · exact ⟨c :: pre, post, by simp [h]⟩
    · rintro ⟨pre, post, h⟩
      cases pre with
      | nil =>
        exact Or.inl ⟨post, by simpa using h⟩
      | cons a as =>
        simp only [List.cons_append, List.cons.injEq] at h
        exact Or.inr ⟨as, post, h.2⟩

/-- `jsIncludes` decides the substring relation on strings. -/
theorem jsIncludes_iff (s pat : String) :
    jsIncludes s pat = true ↔ ∃ pre post, s = pre ++ pat ++ post := by
  rw [jsIncludes, containsChars_iff]
  constructor
  · rintro ⟨pre, post, h⟩
    refine ⟨⟨pre⟩, ⟨post⟩, String.ext ?_⟩
    simpa [String.data_append] using h
  · rintro ⟨pre, post, h⟩
    exact ⟨pre.data, post.data, by rw [h]; simp [String.data_append]⟩

/-- The accumulator form of `String.intercalate` with the comma separator
computes `joinComma`. -/
theorem intercalate_comma_go (xs : List String) :
    ∀ acc : String, String.intercalate.go acc ", " xs = joinComma (acc :: xs) := by
  induction xs with
  | nil =>
    intro acc
    rfl
  | cons x xs ih =>
    intro acc
    show String.intercalate.go (acc ++ ", " ++ x) ", " xs = joinComma (acc :: x :: xs)
    rw [ih]
    cases xs with
    | nil => rfl
    | cons y ys => simp [joinComma, String.append_assoc]

/-- `String.intercalate ", "` is the direct-recursion comma-join. -/
theorem intercalate_comma (l : List String) :
    String.intercalate ", " l = joinComma l := by
  cases l with
  | nil => rfl
  | cons x xs => exact intercalate_comma_go xs x

/-! ## Claim theorems -/

/-- Claim C1, counterexample: the code tests only for an absent map
(`!languages`), and an empty JS object is truthy, so `getLanguages`
applied to the present-but-empty map returns the empty list, not the
fallback list `["Not available"]` the claim demands. -/
theorem c1_counterexample :
    getLanguages (some []) = [] ∧ getLanguages (some []) ≠ ["Not available"] := by
  refine ⟨rfl, ?_⟩
  simp [getLanguages]

/-- Claim C1, amended: `getLanguages` returns `["Not available"]` exactly
when the map is absent; for every present map, including the empty one, it
returns the value strings in iteration order, so the empty map yields `[]`
and a two-language map yields both names. -/
theorem c1_amended :
    getLanguages none = ["Not available"] ∧
    getLanguages (some []) = [] ∧
    (∀ m : List (String × String), getLanguages (some m) = m.map Prod.snd) ∧
    "English" ∈ getLanguages (some [("eng", "English"), ("fra", "French")]) ∧
    "French" ∈ getLanguages (some [("eng", "English"), ("fra", "French")]) := by
  refine ⟨rfl, rfl, fun m => rfl, ?_, ?_⟩ <;> simp [getLanguages]

/-- Claim C2: for every input that trims to the empty string,
`searchCountry` ends in the error state with the exact message
"Please enter a country name", and the outcome carries the
fetch-was-invoked flag `false` for every possible fetch outcome — the data
client is never consulted. -/
theorem c2_empty_input (input : String) (h : jsTrim input = "") :
    ∀ resp : FetchResponse,
      searchCountry input resp = (.errorShown "Please enter a country name", false) := by
  intro resp
  simp [searchCountry, h]

/-- Witness for C2 at the whitespace-only input. -/
theorem c2_empty_input_witness :
    searchCountry "   " .transportFailure =
      (.errorShown "Please enter a country name", false) :=
  c2_empty_input "   " (by decide) .transportFailure

/-- Claim C3, counterexample: the code tests only for an absent border list
(`country.borders ?`), and an empty JS array is truthy, so a record whose
border list is present but empty displays "0 countries", not the default
"None (island/isolated)" the claim demands. -/
theorem c3_counterexample :
    (displayCountryInfo { testRecord with borders := some [] }).map DisplayInfo.borders =
      some "0 countries" ∧
    ("0 countries" : String) ≠ "None (island/isolated)" := by
  refine ⟨rfl, ?_⟩
  decide

/-- Claim C3, amended: the borders display field is "None (island/isolated)"
exactly when the border list is absent; for every present list, including
the empty one, it shows the count of border-country codes. -/
theorem c3_amended (r : JSCountry) (d : DisplayInfo)
    (h : displayCountryInfo r = some d) :
    (r.borders = none → d.borders = "None (island/isolated)") ∧
    (∀ bs, r.borders = some bs → d.borders = toString bs.length ++ " countries") := by
  obtain ⟨name, flags, capital, region, subregion, population, area, currencies,
    languages, tld, latlng, timezones, continents, idd, borders, independent, unMember⟩ := r
  cases name with
  | none => exact Option.noConfusion h
  | some nm =>
  cases flags with
  | none => exact Option.noConfusion h
  | some fl =>
  cases population with
  | none => exact Option.noConfusion h
  | some pop =>
  cases area with
  | none => exact Option.noConfusion h
  | some ar =>
  cases latlng with
  | none => exact Option.noConfusion h
  | some ll =>
  cases timezones with
  | none => exact Option.noConfusion h
  | some tz =>
  cases idd with
  | none => exact Option.noConfusion h
  | some idd =>
  injection h with h
  subst h
  refine ⟨fun hb => ?_, fun bs hb => ?_⟩ <;> subst hb <;> rfl

/-- Witness for C3 (amended) at the record with no border list. -/
theorem c3_amended_witness :
    ((displayCountryInfo testRecord).getD emptyDisplay).borders =
      "None (island/isolated)" :=
  (c3_amended testRecord ((displayCountryInfo testRecord).getD emptyDisplay) rfl).1 rfl

/-- Claim C4: for every HTTP-ok response (status in 200..299) from the
name-search endpoint, `fetchCountryData` returns the first element of the
returned list of matches, and for an empty or missing list it fails with
the empty-result error instead of returning a record. -/
theorem c4_first_match (countryName : String) (status : Nat) (statusText : String)
    (body : Option (List JSCountry)) (hok : 200 ≤ status ∧ status ≤ 299) :
    (∀ first rest, body = some (first :: rest) →
      fetchCountryData countryName (.httpResponse status statusText body) = .ok first) ∧
    (body = none ∨ body = some [] →
      fetchCountryData countryName (.httpResponse status statusText body) =
        .error "No data returned from API") := by
  have h404 : ¬ status = 404 := by omega
  have hnn : ¬ ¬ (200 ≤ status ∧ status ≤ 299) := not_not_intro hok
  constructor
  · intro first rest hb
    subst hb
    simp only [fetchCountryData, fetchAttempt, if_neg h404, if_neg hnn]
    rfl
  · intro hb
    rcases hb with hb | hb <;> subst hb <;>
      simp only [fetchCountryData, fetchAttempt, if_neg h404, if_neg hnn] <;> rfl

/-- Witness for C4 on a 200 response with one match. -/
theorem c4_first_match_witness :
    fetchCountryData "France" (.httpResponse 200 "OK" (some [testRecord])) =
      .ok testRecord :=
  (c4_first_match "France" 200 "OK" (some [testRecord]) (by omega)).1 testRecord [] rfl

/-- Claim C5, counterexample: the catch block replaces any error whose
message contains "Failed to fetch" with the network advice, and that check
also fires on the 404 message when the searched name itself contains
"Failed to fetch" — so searching the literal name "Failed to fetch" under
a 404 ends in the error state showing the network-error message, which
does not contain the searched name. -/
theorem c5_counterexample :
    searchCountry "Failed to fetch" (.httpResponse 404 "Not Found" none) =
      (.errorShown networkErrorMessage, true) ∧
    ¬ ∃ pre post, networkErrorMessage = pre ++ "Failed to fetch" ++ post := by
  constructor
  · rfl
  · intro h
    have hb : jsIncludes networkErrorMessage "Failed to fetch" = true :=
      (jsIncludes_iff networkErrorMessage "Failed to fetch").mpr h
    exact absurd hb (by decide)

/-- Claim C5, amended: for every input that does not trim to empty and
whose not-found message does not contain "Failed to fetch" (in particular
every searched name free of that substring), a lookup yielding HTTP status
404 ends the search in the error state showing the not-found message for
the searched (trimmed) name, the data client having been invoked, and that
message contains the searched name as a substring; a name containing
"Failed to fetch" instead has its message replaced by the network advice
in the catch block. -/
theorem c5_not_found (input : String) (statusText : String)
    (body : Option (List JSCountry)) (h : jsTrim input ≠ "")
    (hff : jsIncludes (notFoundMessage (jsTrim input)) "Failed to fetch" = false) :
    searchCountry input (.httpResponse 404 statusText body) =
      (.errorShown (notFoundMessage (jsTrim input)), true) ∧
    ∃ pre post, notFoundMessage (jsTrim input) = pre ++ jsTrim input ++ post := by
  constructor
  · simp [searchCountry, h, fetchCountryData, fetchAttempt, applyCatch, hff]
  · exact ⟨"Country \"",
      "\" not found. Please check the spelling and try again.", rfl⟩

/-- Witness for C5 (amended) at the name "Atlantis". -/
theorem c5_not_found_witness :
    searchCountry "Atlantis" (.httpResponse 404 "Not Found" none) =
      (.errorShown (notFoundMessage "Atlantis"), true) :=
  (c5_not_found "Atlantis" "Not Found" none (by decide) (by decide)).1

/-- Claim C6, counterexample: the code tests `curr.symbol` for JS
truthiness, and the empty string is falsy, so a currency whose symbol is
present but empty renders as the bare name "US Dollar", not as
"US Dollar ()" with the present symbol interpolated as the claim
("Name (Symbol) when the symbol is present") demands. -/
theorem c6_counterexample :
    getCurrencies (some [("USD", ⟨"US Dollar", some ""⟩)]) = "US Dollar" ∧
    ("US Dollar" : String) ≠ "US Dollar ()" := by
  refine ⟨rfl, ?_⟩
  decide

/-- Claim C6, amended: for an absent currencies map `getCurrencies` returns
"Not available"; for every present map it returns the comma-join of one
entry per currency in map order, each entry being "Name (Symbol)" when the
symbol is present and non-empty and just "Name" when the symbol is absent
or empty; in particular the US-Dollar examples of the claim hold. -/
theorem c6_amended :
    getCurrencies none = "Not available" ∧
    (∀ nm sym : String, sym ≠ "" →
      currencyEntry ⟨nm, some sym⟩ = nm ++ " (" ++ sym ++ ")") ∧
    (∀ nm : String, currencyEntry ⟨nm, none⟩ = nm) ∧
    (∀ nm : String, currencyEntry ⟨nm, some ""⟩ = nm) ∧
    (∀ m : List (String × JSCurrency),
      getCurrencies (some m) = joinComma (m.map (fun p => currencyEntry p.2))) ∧
    (∀ k1 k2 c1 c2, getCurrencies (some [(k1, c1), (k2, c2)]) =
      currencyEntry c1 ++ ", " ++ currencyEntry c2) ∧
    getCurrencies (some [("USD", ⟨"US Dollar", some "$"⟩)]) = "US Dollar ($)" ∧
    getCurrencies (some [("USD", ⟨"US Dollar", none⟩)]) = "US Dollar" := by
  refine ⟨rfl, fun nm sym hs => ?_, fun nm => rfl, fun nm => rfl, fun m => ?_,
    fun k1 k2 c1 c2 => rfl, rfl, rfl⟩
  · simp [currencyEntry, truthyStr, jsStr, hs]
  · show String.intercalate ", " (m.map (fun p => currencyEntry p.2)) = _
    exact intercalate_comma _

/-- Witness for C6 (amended) at the dollar symbol. -/
theorem c6_amended_witness :
    currencyEntry ⟨"US Dollar", some "$"⟩ = "US Dollar ($)" :=
  c6_amended.2.1 "US Dollar" "$" (by decide)

/-- Claim C7: for a state whose applied theme attribute is "light" or
"dark", toggling twice restores the applied theme; and after every
`setTheme` or `toggleTheme` call the value persisted under the storage key
"theme" equals the applied theme attribute. -/
theorem c7_toggle_involutive (s : ThemeState) (t : String)
    (ht : t = "light" ∨ t = "dark") (hs : s.attr = some t) :
    (toggleTheme (toggleTheme s)).attr = some t ∧
    (∀ (u : String) (s2 : ThemeState), (setTheme u s2).stored = (setTheme u s2).attr) ∧
    (∀ s2 : ThemeState, (toggleTheme s2).stored = (toggleTheme s2).attr) := by
  refine ⟨?_, fun u s2 => rfl, fun s2 => rfl⟩
  rcases ht with ht | ht <;> subst ht <;> simp [toggleTheme, setTheme, hs]

/-- Witness for C7 starting from the applied light theme. -/
theorem c7_toggle_involutive_witness :
    (toggleTheme (toggleTheme ⟨some "light", some "light", false, true⟩)).attr =
      some "light" :=
  (c7_toggle_involutive ⟨some "light", some "light", false, true⟩ "light"
    (Or.inl rfl) rfl).1

/-- Claim C8: after every completed view-state transition — `showLoading`,
`showResults`, or `showError` — exactly one of the three display regions
(loading, results, error) is visible and the other two are hidden,
whatever the prior panel state was. -/
theorem c8_exclusive_panels (s : PanelState) :
    exactlyOneVisible (showLoading s) ∧
    exactlyOneVisible (showResults s) ∧
    ∀ message : String, exactlyOneVisible (showError message s) :=
  ⟨by simp [exactlyOneVisible, showLoading],
   by simp [exactlyOneVisible, showResults],
   fun message => by simp [exactlyOneVisible, showError]⟩

/-- Claim C9: `toggleTheme` is total over every current attribute value —
any value other than "dark", including an absent attribute or an invalid
string, is sent to "dark", the value "dark" is sent to "light", and hence
the applied theme after a toggle is always one of light and dark. -/
theorem c9_toggle_total (s : ThemeState) :
    (s.attr ≠ some "dark" → (toggleTheme s).attr = some "dark") ∧
    (s.attr = some "dark" → (toggleTheme s).attr = some "light") ∧
    ((toggleTheme s).attr = some "light" ∨ (toggleTheme s).attr = some "dark") := by
  refine ⟨fun h => ?_, fun h => ?_, ?_⟩
  · simp [toggleTheme, setTheme, h]
  · simp [toggleTheme, setTheme, h]
  · by_cases h : s.attr = some "dark" <;> simp [toggleTheme, setTheme, h]

/-- Witness for C9 at an absent theme attribute. -/
theorem c9_toggle_total_witness :
    (toggleTheme ⟨none, none, false, true⟩).attr = some "dark" :=
  (c9_toggle_total ⟨none, none, false, true⟩).1 (by decide)

/-- The precondition of claim C10: the fields `displayCountryInfo`
dereferences without a guard are present — name with common and official,
flags with svg, region, population, area, latlng with at least two
elements, timezones, and idd. -/
def requiredFieldsPresent (r : JSCountry) : Prop :=
  (∃ nm, r.name = some nm ∧ nm.common.isSome ∧ nm.official.isSome) ∧
  (∃ fl, r.flags = some fl ∧ fl.svg.isSome) ∧
  r.region.isSome ∧
  r.population.isSome ∧
  r.area.isSome ∧
  (∃ l, r.latlng = some l ∧ 2 ≤ l.length) ∧
  r.timezones.isSome ∧
  r.idd.isSome

/-- Claim C10: under the precondition that name (with common and official),
flags (with svg), region, population, area, latlng (with at least two
elements), timezones and idd are present, `displayCountryInfo` succeeds —
it produces a display record — even though capital, subregion, currencies,
languages, tld, continents, idd suffixes and borders are left unconstrained
and may all be absent. -/
theorem c10_display_total (r : JSCountry) (h : requiredFieldsPresent r) :
    (displayCountryInfo r).isSome := by
  obtain ⟨⟨nm, hn, -, -⟩, ⟨fl, hf, -⟩, -, hp, ha, ⟨l, hl, -⟩, ht, hi⟩ := h
  obtain ⟨pop, hp⟩ := Option.isSome_iff_exists.mp hp
  obtain ⟨ar, ha⟩ := Option.isSome_iff_exists.mp ha
  obtain ⟨tz, ht⟩ := Option.isSome_iff_exists.mp ht
  obtain ⟨idd, hi⟩ := Option.isSome_iff_exists.mp hi
  simp [displayCountryInfo, hn, hf, hp, ha, hl, ht, hi]

/-- Witness for C10: the record with every optional field absent satisfies
the precondition and is displayed successfully. -/
theorem c10_display_total_witness :
    requiredFieldsPresent testRecord ∧ (displayCountryInfo testRecord).isSome :=
  ⟨⟨⟨⟨some "Atlantis", some "Republic of Atlantis"⟩, rfl, rfl, rfl⟩,
    ⟨⟨some "https://example.org/flag.svg"⟩, rfl, rfl⟩,
    rfl, rfl, rfl, ⟨[10, 20], rfl, by simp⟩, rfl, rfl⟩,
   c10_display_total testRecord
    ⟨⟨⟨some "Atlantis", some "Republic of Atlantis"⟩, rfl, rfl, rfl⟩,
     ⟨⟨some "https://example.org/flag.svg"⟩, rfl, rfl⟩,
     rfl, rfl, rfl, ⟨[10, 20], rfl, by simp⟩, rfl, rfl⟩⟩

end CountryExp
